import Mathlib

/-!
Shallow embedding of `tapo_onvif_controller.py` (class `TapoONVIFController`),
a thin wrapper over an ONVIF client library exposing PTZ (pan-tilt-zoom)
operations for a Tapo camera.

Modelling conventions:
* Python floats are modelled as rationals (`ℚ`): the arithmetic involved is
  only `max`/`min`/comparisons and passthrough, which are exact.
* The underlying ONVIF library (`onvif`/`zeep`) is modelled as a `Device`
  oracle recording, for each underlying call used by one wrapper invocation,
  either the value it returns (`some`/`.ok`) or that it raises (`none`).
* Each wrapper method becomes a pure function taking the controller state and
  the device oracle, returning its Python return value, the (unchanged or
  updated) controller state, and the trace of underlying-library calls it
  issued, in order.  Exceptions raised by the library are caught inside the
  wrapper, exactly as the Python `try/except` blocks do, so the Lean return
  types carry no error case: the embedding is total just as the Python
  methods never propagate exceptions.
* `hasattr(obj, 'Field')` on zeep response objects is modelled by an
  `Option` field being `some`; an absent (`none`) component on which the code
  would then perform an attribute assignment models the resulting
  `AttributeError`, which the surrounding `except` catches.
-/

/-- A 2-D coordinate as used by ONVIF `PanTilt` elements (`{x, y}`). -/
structure Vec2 where
  x : ℚ
  y : ℚ
deriving DecidableEq

/-- A 1-D coordinate as used by ONVIF `Zoom` elements (`{x}`). -/
structure Vec1 where
  x : ℚ
deriving DecidableEq

/-- An ONVIF PTZ position vector whose `PanTilt` / `Zoom` components may be
absent (models `hasattr` checks on zeep objects). -/
structure PTZVector where
  PanTilt : Option Vec2
  Zoom : Option Vec1
deriving DecidableEq

/-- A PTZ vector with both components present, as built literally by the
wrapper for `Speed`, `Translation` and `Velocity` dictionaries. -/
structure FullVector where
  PanTilt : Vec2
  Zoom : Vec1
deriving DecidableEq

/-- ONVIF `MoveStatus` element of a `GetStatus` response. -/
structure MoveStatusRec where
  PanTilt : Option String
  Zoom : Option String
deriving DecidableEq

/-- ONVIF `GetStatus` response (`PTZStatus`). -/
structure PTZStatus where
  Position : Option PTZVector
  MoveStatus : Option MoveStatusRec
deriving DecidableEq

/-- A `Min`/`Max` range as reported in `GetConfigurationOptions` spaces. -/
structure FloatRange where
  Min : ℚ
  Max : ℚ
deriving DecidableEq

/-- A 1-D position space (only an `XRange`), e.g. `AbsoluteZoomPositionSpace`. -/
structure Space1D where
  XRange : FloatRange
deriving DecidableEq

/-- A 2-D position space (`XRange` and `YRange`),
e.g. `AbsolutePanTiltPositionSpace`. -/
structure Space2D where
  XRange : FloatRange
  YRange : FloatRange
deriving DecidableEq

/-- The `Spaces` member of a `GetConfigurationOptions` response.  An empty
list models the attribute being absent or falsy (the Python code guards with
`hasattr(spaces, '...') and spaces....`). -/
structure PTZSpaces where
  AbsolutePanTiltPositionSpace : List Space2D
  AbsoluteZoomPositionSpace : List Space1D
deriving DecidableEq

/-- An ONVIF media profile, as returned by `GetProfiles`.  Only the members
the wrapper reads are modelled. -/
structure Profile where
  Name : String
  token : String
  PTZConfigurationToken : String
deriving DecidableEq, Inhabited

/-- Response of `GetDeviceInformation`. -/
structure DeviceInfo where
  Manufacturer : String
  Model : String
  FirmwareVersion : String
deriving DecidableEq

/-- A preset as returned by `GetPresets`. -/
structure Preset where
  token : String
  Name : String
  PTZPosition : Option PTZVector
deriving DecidableEq

/-- A serialized value, the result of `zeep.helpers.serialize_object`
(nested dicts/lists of primitives). -/
inductive SValue where
  | null
  | num (q : ℚ)
  | str (s : String)
  | dict (fields : List (String × SValue))
  | list (items : List SValue)

/-- Serialization of a `Vec2`. -/
def serializeVec2 (v : Vec2) : SValue :=
  .dict [("x", .num v.x), ("y", .num v.y)]

/-- Serialization of a `Vec1`. -/
def serializeVec1 (v : Vec1) : SValue :=
  .dict [("x", .num v.x)]

/-- Serialization of an optional component (`None` serializes to null). -/
def serializeOpt {α : Type} (f : α → SValue) : Option α → SValue
  | none => .null
  | some a => f a

/-- Serialization of a `PTZVector`. -/
def serializePTZVector (p : PTZVector) : SValue :=
  .dict [("PanTilt", serializeOpt serializeVec2 p.PanTilt),
         ("Zoom", serializeOpt serializeVec1 p.Zoom)]

/-- Serialization of a `MoveStatusRec`. -/
def serializeMoveStatus (m : MoveStatusRec) : SValue :=
  .dict [("PanTilt", serializeOpt SValue.str m.PanTilt),
         ("Zoom", serializeOpt SValue.str m.Zoom)]

/-- Embeds `zeep.helpers.serialize_object` on a `GetStatus` response. -/
def serialize_object (s : PTZStatus) : SValue :=
  .dict [("Position", serializeOpt serializePTZVector s.Position),
         ("MoveStatus", serializeOpt serializeMoveStatus s.MoveStatus)]

/-- Serialization of a `GetDeviceInformation` response. -/
def serializeDeviceInfo (d : DeviceInfo) : SValue :=
  .dict [("Manufacturer", .str d.Manufacturer),
         ("Model", .str d.Model),
         ("FirmwareVersion", .str d.FirmwareVersion)]

/-- The mutable attributes of `TapoONVIFController` that the claims mention.
`media_service` / `ptz_service` presence is tracked as booleans (the Python
attributes hold opaque service objects). -/
structure ControllerState where
  host : String
  port : ℤ
  user : String
  password : String
  media_service : Bool
  ptz_service : Bool
  media_profile : Profile
  ptz_config_options : Option PTZSpaces
  pan_range : ℚ × ℚ
  tilt_range : ℚ × ℚ
  zoom_range : ℚ × ℚ
deriving DecidableEq

/-- Embeds `TapoONVIFController.__init__`: the state after construction.  The
coordinate ranges get their documented defaults. -/
def initState (host : String) (port : ℤ) (user password : String) :
    ControllerState :=
  { host := host, port := port, user := user, password := password
    media_service := false, ptz_service := false
    media_profile := default
    ptz_config_options := none
    pan_range := (-1, 1)
    tilt_range := (-1, 1)
    zoom_range := (0, 1) }

/-- Oracle for the underlying ONVIF library: for each underlying call one
wrapper invocation may issue, either the response (`some`) or that the call
raises (`none`); plain-success calls are a `Bool` (`false` = raises). -/
structure Device where
  ConnectOk : Bool
  CreateMediaOk : Bool
  CreatePtzOk : Bool
  GetDeviceInfoResp : Option DeviceInfo
  GetProfilesResp : Option (List Profile)
  GetConfigOptionsResp : Option PTZSpaces
  GetStatusResp : Option PTZStatus
  AbsoluteMoveOk : Bool
  RelativeMoveOk : Bool
  ContinuousMoveOk : Bool
  StopOk : Bool
  GotoPresetOk : Bool
  SetPresetResp : Option String
  RemovePresetOk : Bool
  GotoHomeOk : Bool
  SetHomeOk : Bool
  GetPresetsResp : Option (List Preset)
  GetCapabilitiesResp : Option SValue
  GetNodesResp : Option (List SValue)
  GetStreamUriResp : Option String

/-- Requests sent through the underlying library (`AbsoluteMove`). -/
structure AbsoluteMoveRequest where
  ProfileToken : String
  Position : Option PTZVector
  Speed : FullVector
deriving DecidableEq

/-- Request type for `RelativeMove`. -/
structure RelativeMoveRequest where
  ProfileToken : String
  Translation : FullVector
  Speed : FullVector
deriving DecidableEq

/-- Request type for `ContinuousMove`. -/
structure ContinuousMoveRequest where
  ProfileToken : String
  Velocity : FullVector
deriving DecidableEq

/-- Request type for `GotoPreset`. -/
structure GotoPresetRequest where
  ProfileToken : String
  PresetToken : String
  Speed : FullVector
deriving DecidableEq

/-- Request type for `SetPreset` (`PresetToken` is included only when the Python
argument is truthy, i.e. non-`None` and non-empty). -/
structure SetPresetRequest where
  ProfileToken : String
  PresetName : String
  PresetToken : Option String
deriving DecidableEq

/-- Request type for `GotoHomePosition`. -/
structure GotoHomeRequest where
  ProfileToken : String
  Speed : FullVector
deriving DecidableEq

/-- One underlying-library call issued by a wrapper, with its payload. -/
inductive Event where
  | getStatus
  | absoluteMove (req : AbsoluteMoveRequest)
  | relativeMove (req : RelativeMoveRequest)
  | continuousMove (req : ContinuousMoveRequest)
  | stopCall (profileToken : String) (panTilt zoom : Bool)
  | sleep (duration : ℚ)
  | gotoPreset (req : GotoPresetRequest)
  | setPreset (req : SetPresetRequest)
  | removePreset (profileToken presetToken : String)
  | gotoHome (req : GotoHomeRequest)
  | setHome (profileToken : String)
  | getPresets
  | getStreamUri
  | getDeviceInfo
  | getCapabilities
  | getNodes
deriving DecidableEq

/-- The clamp `max(lo, min(hi, v))` used by `absolute_move`. -/
def clampTo (lo hi v : ℚ) : ℚ := max lo (min hi v)

/-- The `Speed` dictionary built by the wrapper: the same scalar on every
axis, `{'PanTilt': {'x': speed, 'y': speed}, 'Zoom': {'x': speed}}`. -/
def uniformSpeed (speed : ℚ) : FullVector :=
  { PanTilt := ⟨speed, speed⟩, Zoom := ⟨speed⟩ }

/-- The `PanTilt` update block of `absolute_move` (lines 204-212): when `pan`
or `tilt` is given, the fetched position must have a `PanTilt` component to
write into (otherwise the attribute assignment raises, modelled by `none`);
each given axis is clamped to the controller's stored range and written. -/
def updatePanTilt (st : ControllerState) (pan tilt : Option ℚ)
    (pos : Option PTZVector) : Option (Option PTZVector) :=
  if pan.isSome || tilt.isSome then
    match pos with
    | none => none
    | some p =>
      match p.PanTilt with
      | none => none
      | some pt =>
        let pt1 := match pan with
          | some v => { pt with x := clampTo st.pan_range.1 st.pan_range.2 v }
          | none => pt
        let pt2 := match tilt with
          | some v => { pt1 with y := clampTo st.tilt_range.1 st.tilt_range.2 v }
          | none => pt1
        some (some { p with PanTilt := some pt2 })
  else
    some pos

/-- The `Zoom` update block of `absolute_move` (lines 214-218). -/
def updateZoom (st : ControllerState) (zoom : Option ℚ)
    (pos : Option PTZVector) : Option (Option PTZVector) :=
  match zoom with
  | none => some pos
  | some v =>
    match pos with
    | none => none
    | some p =>
      match p.Zoom with
      | none => none
      | some z =>
        some (some { p with
          Zoom := some { z with x := clampTo st.zoom_range.1 st.zoom_range.2 v } })

/-- Embeds `TapoONVIFController.absolute_move`: fetches the current position via
`GetStatus`, overwrites only the axes with a non-`None` argument (clamped to
the stored ranges), sets a uniform `Speed`, and issues `AbsoluteMove`.
Returns `True` on success, `False` if any step raises. -/
def absolute_move (st : ControllerState) (dev : Device)
    (pan tilt zoom : Option ℚ) (speed : ℚ) :
    Bool × ControllerState × List Event :=
  match dev.GetStatusResp with
  | none => (false, st, [Event.getStatus])
  | some status =>
    match updatePanTilt st pan tilt status.Position with
    | none => (false, st, [Event.getStatus])
    | some pos1 =>
      match updateZoom st zoom pos1 with
      | none => (false, st, [Event.getStatus])
      | some pos2 =>
        let req : AbsoluteMoveRequest :=
          { ProfileToken := st.media_profile.token
            Position := pos2
            Speed := uniformSpeed speed }
        (dev.AbsoluteMoveOk, st, [Event.getStatus, Event.absoluteMove req])

/-- Embeds `TapoONVIFController.move_to_position`: delegates to `absolute_move`
with `zoom=None`. -/
def move_to_position (st : ControllerState) (dev : Device)
    (pan tilt speed : ℚ) : Bool × ControllerState × List Event :=
  absolute_move st dev (some pan) (some tilt) none speed

/-- Embeds `TapoONVIFController.relative_move`: passes the deltas straight through
as `Translation` and the scalar speed on every axis, then issues
`RelativeMove`. -/
def relative_move (st : ControllerState) (dev : Device)
    (pan_delta tilt_delta zoom_delta speed : ℚ) :
    Bool × ControllerState × List Event :=
  let req : RelativeMoveRequest :=
    { ProfileToken := st.media_profile.token
      Translation := { PanTilt := ⟨pan_delta, tilt_delta⟩, Zoom := ⟨zoom_delta⟩ }
      Speed := uniformSpeed speed }
  (dev.RelativeMoveOk, st, [Event.relativeMove req])

/-- Embeds `TapoONVIFController.stop`: issues `Stop` with `PanTilt=True` and
`Zoom=True`; exceptions are caught and only reported. -/
def stop (st : ControllerState) (_dev : Device) :
    ControllerState × List Event :=
  (st, [Event.stopCall st.media_profile.token true true])

/-- Embeds `TapoONVIFController.continuous_move`: issues `ContinuousMove` with the
given per-axis speeds as `Velocity`, then (only if that call did not raise)
sleeps for `duration` and calls `stop`. -/
def continuous_move (st : ControllerState) (dev : Device)
    (pan_speed tilt_speed zoom_speed duration : ℚ) :
    ControllerState × List Event :=
  let req : ContinuousMoveRequest :=
    { ProfileToken := st.media_profile.token
      Velocity := { PanTilt := ⟨pan_speed, tilt_speed⟩, Zoom := ⟨zoom_speed⟩ } }
  if dev.ContinuousMoveOk then
    let s := stop st dev
    (s.1, Event.continuousMove req :: Event.sleep duration :: s.2)
  else
    (st, [Event.continuousMove req])

/-- Embeds `TapoONVIFController.get_status`: issues `GetStatus` and returns the
`serialize_object` of its response, or `{}` if the call raises. -/
def get_status (st : ControllerState) (dev : Device) :
    SValue × ControllerState × List Event :=
  match dev.GetStatusResp with
  | none => (SValue.dict [], st, [Event.getStatus])
  | some status => (serialize_object status, st, [Event.getStatus])

/-- Embeds `TapoONVIFController.get_current_position`: issues `GetStatus` and reads
`(pan, tilt, zoom)` out of the response, each component defaulting to `0.0`
when the corresponding element is absent; returns `(0.0, 0.0, 0.0)` if the
call raises. -/
def get_current_position (st : ControllerState) (dev : Device) :
    (ℚ × ℚ × ℚ) × ControllerState × List Event :=
  match dev.GetStatusResp with
  | none => ((0, 0, 0), st, [Event.getStatus])
  | some status =>
    let pt : ℚ × ℚ := match status.Position with
      | none => (0, 0)
      | some p => match p.PanTilt with
        | none => (0, 0)
        | some v => (v.x, v.y)
    let z : ℚ := match status.Position with
      | none => 0
      | some p => match p.Zoom with
        | none => 0
        | some v => v.x
    ((pt.1, pt.2, z), st, [Event.getStatus])

/-- Embeds `TapoONVIFController._get_ptz_config_options`: issues
`GetConfigurationOptions` and, from its `Spaces`, overwrites `pan_range` /
`tilt_range` from the first `AbsolutePanTiltPositionSpace` and `zoom_range`
from the first `AbsoluteZoomPositionSpace`; an absent/empty space leaves the
corresponding range untouched, and a raising call leaves the state
untouched (the exception is caught and only reported). -/
def get_ptz_config_options (st : ControllerState) (dev : Device) :
    ControllerState :=
  match dev.GetConfigOptionsResp with
  | none => st
  | some spaces =>
    let st0 := { st with ptz_config_options := some spaces }
    let st1 := match spaces.AbsolutePanTiltPositionSpace with
      | [] => st0
      | s :: _ =>
        { st0 with pan_range := (s.XRange.Min, s.XRange.Max)
                   tilt_range := (s.YRange.Min, s.YRange.Max) }
    match spaces.AbsoluteZoomPositionSpace with
    | [] => st1
    | z :: _ => { st1 with zoom_range := (z.XRange.Min, z.XRange.Max) }

/-- Embeds `TapoONVIFController.connect`: builds the camera connection, fetches the
device information, creates the media service, takes the first media profile
(raising if the list is empty), creates the PTZ service, and finally runs
`_get_ptz_config_options`.  Any exception yields `False`, with the state
updated only as far as the assignments already executed. -/
def connect (st : ControllerState) (dev : Device) : Bool × ControllerState :=
  if dev.ConnectOk = false then (false, st)
  else
    match dev.GetDeviceInfoResp with
    | none => (false, st)
    | some _ =>
      if dev.CreateMediaOk = false then (false, st)
      else
        let stA := { st with media_service := true }
        match dev.GetProfilesResp with
        | none => (false, stA)
        | some [] => (false, stA)
        | some (p :: _) =>
          let stB := { stA with media_profile := p }
          if dev.CreatePtzOk = false then (false, stB)
          else
            let stC := { stB with ptz_service := true }
            (true, get_ptz_config_options stC dev)

/-- Embeds `TapoONVIFController.get_rtsp_url`: pure string formatting, no
underlying call and no failure path. -/
def get_rtsp_url (st : ControllerState) (stream_index : ℤ) : String :=
  "rtsp://" ++ st.user ++ ":" ++ st.password ++ "@" ++ st.host ++
    ":554/stream" ++ toString stream_index

/-- Embeds `TapoONVIFController.get_onvif_stream_url`: issues `GetStreamUri` and
returns its `Uri`, or `""` if the call raises. -/
def get_onvif_stream_url (st : ControllerState) (dev : Device) :
    String × ControllerState × List Event :=
  match dev.GetStreamUriResp with
  | none => ("", st, [Event.getStreamUri])
  | some uri => (uri, st, [Event.getStreamUri])

/-- Embeds `TapoONVIFController.get_presets`: issues `GetPresets` and returns the
`{token: name}` mapping (as an association list in response order), or `{}`
if the call raises. -/
def get_presets (st : ControllerState) (dev : Device) :
    List (String × String) × ControllerState × List Event :=
  match dev.GetPresetsResp with
  | none => ([], st, [Event.getPresets])
  | some presets =>
    (presets.map (fun p => (p.token, p.Name)), st, [Event.getPresets])

/-- Embeds `TapoONVIFController.goto_preset`: issues `GotoPreset` with the given
token and a uniform speed; exceptions are caught and only reported. -/
def goto_preset (st : ControllerState) (_dev : Device)
    (preset_token : String) (speed : ℚ) : ControllerState × List Event :=
  let req : GotoPresetRequest :=
    { ProfileToken := st.media_profile.token
      PresetToken := preset_token
      Speed := uniformSpeed speed }
  (st, [Event.gotoPreset req])

/-- Embeds `TapoONVIFController.set_preset`: issues `SetPreset` with the given name
(and the token only when truthy) and returns the response's `PresetToken`,
or `""` if the call raises. -/
def set_preset (st : ControllerState) (dev : Device)
    (preset_name : String) (preset_token : Option String) :
    String × ControllerState × List Event :=
  let req : SetPresetRequest :=
    { ProfileToken := st.media_profile.token
      PresetName := preset_name
      PresetToken := match preset_token with
        | none => none
        | some t => if t.isEmpty then none else some t }
  match dev.SetPresetResp with
  | none => ("", st, [Event.setPreset req])
  | some token => (token, st, [Event.setPreset req])

/-- Embeds `TapoONVIFController.remove_preset`: issues `RemovePreset`; exceptions
are caught and only reported. -/
def remove_preset (st : ControllerState) (_dev : Device)
    (preset_token : String) : ControllerState × List Event :=
  (st, [Event.removePreset st.media_profile.token preset_token])

/-- Embeds `TapoONVIFController.goto_home`: issues `GotoHomePosition` with a
uniform speed; exceptions are caught and only reported. -/
def goto_home (st : ControllerState) (_dev : Device) (speed : ℚ) :
    ControllerState × List Event :=
  let req : GotoHomeRequest :=
    { ProfileToken := st.media_profile.token
      Speed := uniformSpeed speed }
  (st, [Event.gotoHome req])

/-- Embeds `TapoONVIFController.set_home`: issues `SetHomePosition`; exceptions are
caught and only reported. -/
def set_home (st : ControllerState) (_dev : Device) :
    ControllerState × List Event :=
  (st, [Event.setHome st.media_profile.token])

/-- Embeds `TapoONVIFController.get_device_info`: issues `GetDeviceInformation` and
returns its serialization, or `{}` if the call raises. -/
def get_device_info (st : ControllerState) (dev : Device) :
    SValue × ControllerState × List Event :=
  match dev.GetDeviceInfoResp with
  | none => (SValue.dict [], st, [Event.getDeviceInfo])
  | some info => (serializeDeviceInfo info, st, [Event.getDeviceInfo])

/-- Embeds `TapoONVIFController.get_capabilities`: issues `GetCapabilities` and
returns its serialization (modelled as an already-serialized value), or `{}`
if the call raises. -/
def get_capabilities (st : ControllerState) (dev : Device) :
    SValue × ControllerState × List Event :=
  match dev.GetCapabilitiesResp with
  | none => (SValue.dict [], st, [Event.getCapabilities])
  | some caps => (caps, st, [Event.getCapabilities])

/-- Embeds `TapoONVIFController.get_ptz_nodes`: issues `GetNodes` and returns its
serialization (a list), or `[]` if the call raises. -/
def get_ptz_nodes (st : ControllerState) (dev : Device) :
    List SValue × ControllerState × List Event :=
  match dev.GetNodesResp with
  | none => ([], st, [Event.getNodes])
  | some nodes => (nodes, st, [Event.getNodes])

/-! ### Helper lemmas about the `absolute_move` position update blocks -/

/-- The clamp leaves in-range values unchanged. -/
theorem clampTo_eq_self (lo hi v : ℚ) (h1 : lo ≤ v) (h2 : v ≤ hi) :
    clampTo lo hi v = v := by
  unfold clampTo
  rw [min_eq_right h2, max_eq_right h1]

/-- When `pan` is given, a successful `PanTilt` update yields a position
whose `x` is the clamped `pan`. -/
theorem updatePanTilt_pan (st : ControllerState) (tilt : Option ℚ)
    (pos pos1 : Option PTZVector) (v : ℚ)
    (h : updatePanTilt st (some v) tilt pos = some pos1) :
    ∃ p pt, pos1 = some p ∧ p.PanTilt = some pt ∧
      pt.x = clampTo st.pan_range.1 st.pan_range.2 v := by
  unfold updatePanTilt at h
  simp only [Option.isSome_some, Bool.true_or, if_true] at h
  cases pos with
  | none => simp at h
  | some p =>
    obtain ⟨pPT, pZ⟩ := p
    cases pPT with
    | none => simp at h
    | some pt =>
      simp only [Option.some.injEq] at h
      cases tilt with
      | none => exact ⟨_, _, h.symm, rfl, rfl⟩
      | some w => exact ⟨_, _, h.symm, rfl, rfl⟩

/-- When `tilt` is given, a successful `PanTilt` update yields a position
whose `y` is the clamped `tilt`. -/
theorem updatePanTilt_tilt (st : ControllerState) (pan : Option ℚ)
    (pos pos1 : Option PTZVector) (v : ℚ)
    (h : updatePanTilt st pan (some v) pos = some pos1) :
    ∃ p pt, pos1 = some p ∧ p.PanTilt = some pt ∧
      pt.y = clampTo st.tilt_range.1 st.tilt_range.2 v := by
  unfold updatePanTilt at h
  simp only [Option.isSome_some, Bool.or_true, if_true] at h
  cases pos with
  | none => simp at h
  | some p =>
    obtain ⟨pPT, pZ⟩ := p
    cases pPT with
    | none => simp at h
    | some pt =>
      simp only [Option.some.injEq] at h
      cases pan with
      | none => exact ⟨_, _, h.symm, rfl, rfl⟩
      | some w => exact ⟨_, _, h.symm, rfl, rfl⟩

/-- With both `pan` and `tilt` absent, the `PanTilt` block is skipped
entirely. -/
theorem updatePanTilt_none_none (st : ControllerState)
    (pos : Option PTZVector) :
    updatePanTilt st none none pos = some pos := by
  unfold updatePanTilt
  simp

/-- With `pan` absent, the `PanTilt` block preserves the `x` coordinate. -/
theorem updatePanTilt_x_of_pan_none (st : ControllerState) (tilt : Option ℚ)
    (pos pos1 : Option PTZVector)
    (h : updatePanTilt st none tilt pos = some pos1) :
    Option.map (fun v => v.x) (Option.bind pos1 (fun p => p.PanTilt)) =
      Option.map (fun v => v.x) (Option.bind pos (fun p => p.PanTilt)) := by
  unfold updatePanTilt at h
  cases tilt with
  | none =>
    simp at h
    subst h
    rfl
  | some w =>
    simp only [Option.isSome_none, Option.isSome_some, Bool.false_or,
      if_true] at h
    cases pos with
    | none => simp at h
    | some p =>
      obtain ⟨pPT, pZ⟩ := p
      cases pPT with
      | none => simp at h
      | some pt =>
        simp only [Option.some.injEq] at h
        rw [← h]
        rfl

/-- With `tilt` absent, the `PanTilt` block preserves the `y` coordinate. -/
theorem updatePanTilt_y_of_tilt_none (st : ControllerState) (pan : Option ℚ)
    (pos pos1 : Option PTZVector)
    (h : updatePanTilt st pan none pos = some pos1) :
    Option.map (fun v => v.y) (Option.bind pos1 (fun p => p.PanTilt)) =
      Option.map (fun v => v.y) (Option.bind pos (fun p => p.PanTilt)) := by
  unfold updatePanTilt at h
  cases pan with
  | none =>
    simp at h
    subst h
    rfl
  | some w =>
    simp only [Option.isSome_some, Bool.true_or, if_true] at h
    cases pos with
    | none => simp at h
    | some p =>
      obtain ⟨pPT, pZ⟩ := p
      cases pPT with
      | none => simp at h
      | some pt =>
        simp only [Option.some.injEq] at h
        rw [← h]
        rfl

/-- The `PanTilt` block never touches the `Zoom` component. -/
theorem updatePanTilt_zoom (st : ControllerState) (pan tilt : Option ℚ)
    (pos pos1 : Option PTZVector)
    (h : updatePanTilt st pan tilt pos = some pos1) :
    Option.bind pos1 (fun p => p.Zoom) = Option.bind pos (fun p => p.Zoom) := by
  unfold updatePanTilt at h
  by_cases hc : (pan.isSome || tilt.isSome) = true
  · rw [if_pos hc] at h
    cases pos with
    | none => simp at h
    | some p =>
      obtain ⟨pPT, pZ⟩ := p
      cases pPT with
      | none => simp at h
      | some pt =>
        simp only [Option.some.injEq] at h
        rw [← h]
        rfl
  · rw [if_neg hc] at h
    simp only [Option.some.injEq] at h
    subst h
    rfl

/-- When `zoom` is given, a successful `Zoom` update yields a position whose
`Zoom.x` is the clamped `zoom`. -/
theorem updateZoom_zoom (st : ControllerState)
    (pos pos1 : Option PTZVector) (v : ℚ)
    (h : updateZoom st (some v) pos = some pos1) :
    ∃ p z, pos1 = some p ∧ p.Zoom = some z ∧
      z.x = clampTo st.zoom_range.1 st.zoom_range.2 v := by
  unfold updateZoom at h
  cases pos with
  | none => simp at h
  | some p =>
    obtain ⟨pPT, pZ⟩ := p
    cases pZ with
    | none => simp at h
    | some z =>
      simp only [Option.some.injEq] at h
      exact ⟨_, _, h.symm, rfl, rfl⟩

/-- With `zoom` absent, the `Zoom` block is skipped entirely. -/
theorem updateZoom_none (st : ControllerState) (pos : Option PTZVector) :
    updateZoom st none pos = some pos := rfl

/-- The `Zoom` block never touches the `PanTilt` component. -/
theorem updateZoom_panTilt (st : ControllerState) (zoom : Option ℚ)
    (pos pos1 : Option PTZVector)
    (h : updateZoom st zoom pos = some pos1) :
    Option.bind pos1 (fun p => p.PanTilt) =
      Option.bind pos (fun p => p.PanTilt) := by
  unfold updateZoom at h
  cases zoom with
  | none =>
    simp at h
    subst h
    rfl
  | some v =>
    cases pos with
    | none => simp at h
    | some p =>
      obtain ⟨pPT, pZ⟩ := p
      cases pZ with
      | none => simp at h
      | some z =>
        simp only [Option.some.injEq] at h
        rw [← h]
        rfl

/-- Inversion: if an `absolute_move` invocation put an `AbsoluteMove` request
on the wire, then `GetStatus` succeeded, both update blocks succeeded, and
the request carries the updated position, the profile token, and a uniform
speed. -/
theorem absolute_move_event (st : ControllerState) (dev : Device)
    (pan tilt zoom : Option ℚ) (speed : ℚ) (req : AbsoluteMoveRequest)
    (hmem : Event.absoluteMove req ∈
      (absolute_move st dev pan tilt zoom speed).2.2) :
    ∃ status pos1, dev.GetStatusResp = some status ∧
      updatePanTilt st pan tilt status.Position = some pos1 ∧
      updateZoom st zoom pos1 = some req.Position ∧
      req.ProfileToken = st.media_profile.token ∧
      req.Speed = uniformSpeed speed := by
  cases hGS : dev.GetStatusResp with
  | none => simp [absolute_move, hGS] at hmem
  | some status =>
    cases hU1 : updatePanTilt st pan tilt status.Position with
    | none => simp [absolute_move, hGS, hU1] at hmem
    | some pos1 =>
      cases hU2 : updateZoom st zoom pos1 with
      | none => simp [absolute_move, hGS, hU1, hU2] at hmem
      | some pos2 =>
        simp only [absolute_move, hGS, hU1, hU2, List.mem_cons,
          List.not_mem_nil, or_false, reduceCtorEq, false_or,
          Event.absoluteMove.injEq] at hmem
        subst hmem
        exact ⟨status, pos1, rfl, hU1, hU2, rfl, rfl⟩

/-- A position option whose bound `PanTilt` is present comes from a present
position. -/
theorem bind_panTilt_some (pos : Option PTZVector) (pt : Vec2)
    (h : Option.bind pos (fun p => p.PanTilt) = some pt) :
    ∃ p, pos = some p ∧ p.PanTilt = some pt := by
  cases pos with
  | none => simp at h
  | some p => exact ⟨p, rfl, h⟩

/-- C1: whenever `absolute_move` sends an `AbsoluteMove` request, each
non-`None` axis argument is sent clamped to the controller's stored
device-reported range as `max(lo, min(hi, v))` — pan to `pan_range`, tilt to
`tilt_range`, zoom to `zoom_range` — and an argument already inside its
range is sent unchanged. -/
theorem C1_absolute_move_clamps (st : ControllerState) (dev : Device)
    (pan tilt zoom : Option ℚ) (speed : ℚ) (req : AbsoluteMoveRequest)
    (hmem : Event.absoluteMove req ∈
      (absolute_move st dev pan tilt zoom speed).2.2) :
    (∀ v, pan = some v → ∃ p pt, req.Position = some p ∧
        p.PanTilt = some pt ∧
        pt.x = max st.pan_range.1 (min st.pan_range.2 v)) ∧
    (∀ v, tilt = some v → ∃ p pt, req.Position = some p ∧
        p.PanTilt = some pt ∧
        pt.y = max st.tilt_range.1 (min st.tilt_range.2 v)) ∧
    (∀ v, zoom = some v → ∃ p z, req.Position = some p ∧
        p.Zoom = some z ∧
        z.x = max st.zoom_range.1 (min st.zoom_range.2 v)) ∧
    (∀ v, pan = some v → st.pan_range.1 ≤ v → v ≤ st.pan_range.2 →
        ∃ p pt, req.Position = some p ∧ p.PanTilt = some pt ∧ pt.x = v) ∧
    (∀ v, tilt = some v → st.tilt_range.1 ≤ v → v ≤ st.tilt_range.2 →
        ∃ p pt, req.Position = some p ∧ p.PanTilt = some pt ∧ pt.y = v) ∧
    (∀ v, zoom = some v → st.zoom_range.1 ≤ v → v ≤ st.zoom_range.2 →
        ∃ p z, req.Position = some p ∧ p.Zoom = some z ∧ z.x = v) := by
  obtain ⟨status, pos1, hGS, hU1, hU2, hTok, hSp⟩ :=
    absolute_move_event st dev pan tilt zoom speed req hmem
  have hpan : ∀ v, pan = some v → ∃ p pt, req.Position = some p ∧
      p.PanTilt = some pt ∧ pt.x = clampTo st.pan_range.1 st.pan_range.2 v := by
    rintro v rfl
    obtain ⟨p, pt, hpos1, hppt, hx⟩ :=
      updatePanTilt_pan st tilt status.Position pos1 v hU1
    have hPT := updateZoom_panTilt st zoom pos1 req.Position hU2
    rw [hpos1] at hPT
    simp only [Option.some_bind, hppt] at hPT
    obtain ⟨p2, hp2, hp2pt⟩ := bind_panTilt_some req.Position pt hPT
    exact ⟨p2, pt, hp2, hp2pt, hx⟩
  have htilt : ∀ v, tilt = some v → ∃ p pt, req.Position = some p ∧
      p.PanTilt = some pt ∧ pt.y = clampTo st.tilt_range.1 st.tilt_range.2 v := by
    rintro v rfl
    obtain ⟨p, pt, hpos1, hppt, hy⟩ :=
      updatePanTilt_tilt st pan status.Position pos1 v hU1
    have hPT := updateZoom_panTilt st zoom pos1 req.Position hU2
    rw [hpos1] at hPT
    simp only [Option.some_bind, hppt] at hPT
    obtain ⟨p2, hp2, hp2pt⟩ := bind_panTilt_some req.Position pt hPT
    exact ⟨p2, pt, hp2, hp2pt, hy⟩
  have hzoom : ∀ v, zoom = some v → ∃ p z, req.Position = some p ∧
      p.Zoom = some z ∧ z.x = clampTo st.zoom_range.1 st.zoom_range.2 v := by
    rintro v rfl
    exact updateZoom_zoom st pos1 req.Position v hU2
  refine ⟨?_, ?_, ?_, ?_, ?_, ?_⟩
  · intro v hv
    obtain ⟨p, pt, h1, h2, h3⟩ := hpan v hv
    simp only [clampTo] at h3
    exact ⟨p, pt, h1, h2, h3⟩
  · intro v hv
    obtain ⟨p, pt, h1, h2, h3⟩ := htilt v hv
    simp only [clampTo] at h3
    exact ⟨p, pt, h1, h2, h3⟩
  · intro v hv
    obtain ⟨p, z, h1, h2, h3⟩ := hzoom v hv
    simp only [clampTo] at h3
    exact ⟨p, z, h1, h2, h3⟩
  · intro v hv hlo hhi
    obtain ⟨p, pt, h1, h2, h3⟩ := hpan v hv
    rw [clampTo_eq_self _ _ _ hlo hhi] at h3
    exact ⟨p, pt, h1, h2, h3⟩
  · intro v hv hlo hhi
    obtain ⟨p, pt, h1, h2, h3⟩ := htilt v hv
    rw [clampTo_eq_self _ _ _ hlo hhi] at h3
    exact ⟨p, pt, h1, h2, h3⟩
  · intro v hv hlo hhi
    obtain ⟨p, z, h1, h2, h3⟩ := hzoom v hv
    rw [clampTo_eq_self _ _ _ hlo hhi] at h3
    exact ⟨p, z, h1, h2, h3⟩

/-- A freshly constructed controller used for concrete checks. -/
def cSt : ControllerState := initState "192.168.1.100" 2020 "user" "pw"

/-- A concrete position with both components present. -/
def cPos : PTZVector := { PanTilt := some ⟨0, 0⟩, Zoom := some ⟨0⟩ }

/-- A concrete `GetStatus` response. -/
def cStatus : PTZStatus := { Position := some cPos, MoveStatus := none }

/-- A device oracle on which every underlying call succeeds. -/
def cDev : Device :=
  { ConnectOk := true, CreateMediaOk := true, CreatePtzOk := true
    GetDeviceInfoResp := some ⟨"TP-Link", "C225", "1.0"⟩
    GetProfilesResp := some [⟨"prof0", "tok0", "cfg0"⟩]
    GetConfigOptionsResp := some
      { AbsolutePanTiltPositionSpace := [⟨⟨-1, 1⟩, ⟨-1, 1⟩⟩]
        AbsoluteZoomPositionSpace := [⟨⟨0, 1⟩⟩] }
    GetStatusResp := some cStatus
    AbsoluteMoveOk := true, RelativeMoveOk := true, ContinuousMoveOk := true
    StopOk := true, GotoPresetOk := true, SetPresetResp := some "p1"
    RemovePresetOk := true, GotoHomeOk := true, SetHomeOk := true
    GetPresetsResp := some [], GetCapabilitiesResp := some (SValue.dict [])
    GetNodesResp := some [], GetStreamUriResp := some "rtsp://c" }

/-- A device oracle on which every underlying call raises. -/
def cFailDev : Device :=
  { ConnectOk := false, CreateMediaOk := false, CreatePtzOk := false
    GetDeviceInfoResp := none, GetProfilesResp := none
    GetConfigOptionsResp := none, GetStatusResp := none
    AbsoluteMoveOk := false, RelativeMoveOk := false
    ContinuousMoveOk := false, StopOk := false, GotoPresetOk := false
    SetPresetResp := none, RemovePresetOk := false, GotoHomeOk := false
    SetHomeOk := false, GetPresetsResp := none, GetCapabilitiesResp := none
    GetNodesResp := none, GetStreamUriResp := none }

/-- The request `absolute_move cSt cDev (some 2) (some 0) (some 1) 1` puts
on the wire: pan 2 clamps to 1, tilt 0 stays, zoom 1 stays. -/
def cReqC1 : AbsoluteMoveRequest :=
  { ProfileToken := cSt.media_profile.token
    Position := some { PanTilt := some ⟨1, 0⟩, Zoom := some ⟨1⟩ }
    Speed := uniformSpeed 1 }

/-- Witness for C1: a concrete out-of-range pan of `2` is sent as the
clamped value. -/
theorem C1_witness :
    ∃ p pt, cReqC1.Position = some p ∧ p.PanTilt = some pt ∧
      pt.x = max cSt.pan_range.1 (min cSt.pan_range.2 2) :=
  (C1_absolute_move_clamps cSt cDev (some 2) (some 0) (some 1) 1 cReqC1
    (by decide)).1 2 rfl

/-- C9: the `AbsoluteMove` request's position is seeded from the device's
current position (`GetStatus`) and only the axes with a non-`None` argument
are overwritten: with `pan=None` the sent `x` equals the current `x`, with
`tilt=None` the sent `y` equals the current `y`, with `pan=None` and
`tilt=None` the sent `PanTilt` equals the current `PanTilt`, and with
`zoom=None` the sent `Zoom` equals the current `Zoom`. -/
theorem C9_unspecified_axes_preserved (st : ControllerState) (dev : Device)
    (pan tilt zoom : Option ℚ) (speed : ℚ) (req : AbsoluteMoveRequest)
    (status : PTZStatus) (hGS : dev.GetStatusResp = some status)
    (hmem : Event.absoluteMove req ∈
      (absolute_move st dev pan tilt zoom speed).2.2) :
    (pan = none →
      Option.map (fun v => v.x)
        (Option.bind req.Position (fun p => p.PanTilt)) =
      Option.map (fun v => v.x)
        (Option.bind status.Position (fun p => p.PanTilt))) ∧
    (tilt = none →
      Option.map (fun v => v.y)
        (Option.bind req.Position (fun p => p.PanTilt)) =
      Option.map (fun v => v.y)
        (Option.bind status.Position (fun p => p.PanTilt))) ∧
    (pan = none → tilt = none →
      Option.bind req.Position (fun p => p.PanTilt) =
      Option.bind status.Position (fun p => p.PanTilt)) ∧
    (zoom = none →
      Option.bind req.Position (fun p => p.Zoom) =
      Option.bind status.Position (fun p => p.Zoom)) := by
  obtain ⟨status2, pos1, hGS2, hU1, hU2, hTok, hSp⟩ :=
    absolute_move_event st dev pan tilt zoom speed req hmem
  rw [hGS] at hGS2
  obtain rfl : status = status2 := by
    exact (Option.some.injEq _ _).mp hGS2
  refine ⟨?_, ?_, ?_, ?_⟩
  · rintro rfl
    have h1 := updatePanTilt_x_of_pan_none st tilt status.Position pos1 hU1
    have h2 := updateZoom_panTilt st zoom pos1 req.Position hU2
    rw [h2, h1]
  · rintro rfl
    have h1 := updatePanTilt_y_of_tilt_none st pan status.Position pos1 hU1
    have h2 := updateZoom_panTilt st zoom pos1 req.Position hU2
    rw [h2, h1]
  · rintro rfl rfl
    rw [updatePanTilt_none_none st status.Position] at hU1
    obtain rfl : status.Position = pos1 := (Option.some.injEq _ _).mp hU1
    exact updateZoom_panTilt st zoom _ req.Position hU2
  · rintro rfl
    rw [updateZoom_none st pos1] at hU2
    obtain rfl : pos1 = req.Position := (Option.some.injEq _ _).mp hU2
    exact updatePanTilt_zoom st pan tilt status.Position _ hU1

/-- The request `absolute_move cSt cDev none none (some 1) 1` puts on the
wire: pan/tilt untouched, zoom set to 1. -/
def cReqC9 : AbsoluteMoveRequest :=
  { ProfileToken := cSt.media_profile.token
    Position := some { PanTilt := some ⟨0, 0⟩, Zoom := some ⟨1⟩ }
    Speed := uniformSpeed 1 }

/-- Witness for C9: with `pan=None` and `tilt=None` the sent `PanTilt`
equals the device's current one. -/
theorem C9_witness :
    Option.bind cReqC9.Position (fun p => p.PanTilt) =
      Option.bind cStatus.Position (fun p => p.PanTilt) :=
  (C9_unspecified_axes_preserved cSt cDev none none (some 1) 1 cReqC9
    cStatus rfl (by decide)).2.2.1 rfl rfl

/-- C3: `relative_move` is a direct passthrough: the `RelativeMove` request
carries `Translation` equal to exactly the given deltas and `Speed` equal to
exactly the given speed on every axis, and nothing else is sent. -/
theorem C3_relative_move_passthrough (st : ControllerState) (dev : Device)
    (pan_delta tilt_delta zoom_delta speed : ℚ) :
    (relative_move st dev pan_delta tilt_delta zoom_delta speed).2.2 =
      [Event.relativeMove
        { ProfileToken := st.media_profile.token
          Translation := { PanTilt := ⟨pan_delta, tilt_delta⟩
                           Zoom := ⟨zoom_delta⟩ }
          Speed := { PanTilt := ⟨speed, speed⟩, Zoom := ⟨speed⟩ } }] := rfl

/-- C4: when the underlying `GetStatus` succeeds, `get_status` returns the
serialized response unmodified. -/
theorem C4_get_status_passthrough (st : ControllerState) (dev : Device)
    (status : PTZStatus) (h : dev.GetStatusResp = some status) :
    (get_status st dev).1 = serialize_object status := by
  simp [get_status, h]

/-- Witness for C4 on a concrete successful device. -/
theorem C4_witness : (get_status cSt cDev).1 = serialize_object cStatus :=
  C4_get_status_passthrough cSt cDev cStatus rfl

/-- C5: `continuous_move` issues `ContinuousMove` with the given speeds as
`Velocity`, then waits `duration`, then issues `Stop` with `PanTilt=True`
and `Zoom=True` — in that order; if `ContinuousMove` raises, no `Stop` is
issued by the call. -/
theorem C5_continuous_move_order (st : ControllerState) (dev : Device)
    (pan_speed tilt_speed zoom_speed duration : ℚ) :
    (dev.ContinuousMoveOk = true →
      (continuous_move st dev pan_speed tilt_speed zoom_speed duration).2 =
        [Event.continuousMove
           { ProfileToken := st.media_profile.token
             Velocity := { PanTilt := ⟨pan_speed, tilt_speed⟩
                           Zoom := ⟨zoom_speed⟩ } },
         Event.sleep duration,
         Event.stopCall st.media_profile.token true true]) ∧
    (dev.ContinuousMoveOk = false →
      (continuous_move st dev pan_speed tilt_speed zoom_speed duration).2 =
        [Event.continuousMove
           { ProfileToken := st.media_profile.token
             Velocity := { PanTilt := ⟨pan_speed, tilt_speed⟩
                           Zoom := ⟨zoom_speed⟩ } }]) ∧
    (dev.ContinuousMoveOk = false → ∀ tok pt z,
      Event.stopCall tok pt z ∉
        (continuous_move st dev pan_speed tilt_speed zoom_speed duration).2) := by
  refine ⟨?_, ?_, ?_⟩
  · intro h
    simp [continuous_move, stop, h]
  · intro h
    simp [continuous_move, stop, h]
  · intro h tok pt z
    simp [continuous_move, stop, h]

/-- Witness for C5 on a concrete successful device. -/
theorem C5_witness :
    (continuous_move cSt cDev 1 0 0 2).2 =
      [Event.continuousMove
         { ProfileToken := cSt.media_profile.token
           Velocity := { PanTilt := ⟨1, 0⟩, Zoom := ⟨0⟩ } },
       Event.sleep 2,
       Event.stopCall cSt.media_profile.token true true] :=
  (C5_continuous_move_order cSt cDev 1 0 0 2).1 rfl

/-- The controller state returned by `absolute_move` is always the input
state: the method assigns no attribute of `self`. -/
theorem absolute_move_state (st : ControllerState) (dev : Device)
    (pan tilt zoom : Option ℚ) (speed : ℚ) :
    (absolute_move st dev pan tilt zoom speed).2.1 = st := by
  unfold absolute_move
  split
  · rfl
  · split
    · rfl
    · split
      · rfl
      · rfl

/-- C6: the PTZ operations neither mutate any stored controller attribute
nor cache: every operation returns the state unchanged, and `get_status` /
`get_current_position` issue a fresh `GetStatus` on every invocation, their
result depending only on that call's response. -/
theorem C6_no_persistent_state (st : ControllerState) (dev : Device)
    (pan tilt zoom : Option ℚ) (pd td zd ps ts zs dur speed : ℚ) :
    (absolute_move st dev pan tilt zoom speed).2.1 = st ∧
    (relative_move st dev pd td zd speed).2.1 = st ∧
    (continuous_move st dev ps ts zs dur).1 = st ∧
    (stop st dev).1 = st ∧
    (get_status st dev).2.1 = st ∧
    (get_current_position st dev).2.1 = st ∧
    Event.getStatus ∈ (get_status st dev).2.2 ∧
    Event.getStatus ∈ (get_current_position st dev).2.2 ∧
    (∀ dev2 : Device, dev.GetStatusResp = dev2.GetStatusResp →
      (get_status st dev).1 = (get_status st dev2).1) ∧
    (∀ dev2 : Device, dev.GetStatusResp = dev2.GetStatusResp →
      (get_current_position st dev).1 = (get_current_position st dev2).1) := by
  refine ⟨absolute_move_state st dev pan tilt zoom speed, rfl, ?_, rfl,
    ?_, ?_, ?_, ?_, ?_, ?_⟩
  · cases h : dev.ContinuousMoveOk <;> simp [continuous_move, stop, h]
  · cases h : dev.GetStatusResp <;> simp [get_status, h]
  · cases h : dev.GetStatusResp <;> simp [get_current_position, h]
  · cases h : dev.GetStatusResp <;> simp [get_status, h]
  · cases h : dev.GetStatusResp <;> simp [get_current_position, h]
  · intro dev2 h
    unfold get_status
    rw [h]
  · intro dev2 h
    unfold get_current_position
    rw [h]

/-- A device that raises on everything except `GetStatus`, which answers as
`cDev` does. -/
def cDev2 : Device := { cFailDev with GetStatusResp := some cStatus }

/-- Witness for C6: two devices differing everywhere except in their
`GetStatus` response yield the same `get_current_position` result. -/
theorem C6_witness :
    (get_current_position cSt cDev).1 = (get_current_position cSt cDev2).1 :=
  (C6_no_persistent_state cSt cDev none none none 0 0 0 0 0 0 0
    0).2.2.2.2.2.2.2.2.2 cDev2 rfl

/-- Recognizes an `AbsoluteMove` wire call. -/
def Event.isAbsoluteMoveCall : Event → Bool
  | .absoluteMove _ => true
  | _ => false

/-- Recognizes a `RelativeMove` wire call. -/
def Event.isRelativeMoveCall : Event → Bool
  | .relativeMove _ => true
  | _ => false

/-- Recognizes a `ContinuousMove` wire call. -/
def Event.isContinuousMoveCall : Event → Bool
  | .continuousMove _ => true
  | _ => false

/-- Recognizes a `Stop` wire call. -/
def Event.isStopWireCall : Event → Bool
  | .stopCall _ _ _ => true
  | _ => false

/-- Recognizes a `GotoPreset` wire call. -/
def Event.isGotoPresetCall : Event → Bool
  | .gotoPreset _ => true
  | _ => false

/-- Recognizes a `SetPreset` wire call. -/
def Event.isSetPresetCall : Event → Bool
  | .setPreset _ => true
  | _ => false

/-- Recognizes a `RemovePreset` wire call. -/
def Event.isRemovePresetCall : Event → Bool
  | .removePreset _ _ => true
  | _ => false

/-- Recognizes a `GotoHomePosition` wire call. -/
def Event.isGotoHomeCall : Event → Bool
  | .gotoHome _ => true
  | _ => false

/-- Recognizes a `SetHomePosition` wire call. -/
def Event.isSetHomeCall : Event → Bool
  | .setHome _ => true
  | _ => false

/-- C7: no retry/backoff — each wrapper issues its corresponding underlying
library operation at most once per invocation, also when it raises. -/
theorem C7_no_retry (st : ControllerState) (dev : Device)
    (pan tilt zoom : Option ℚ) (pd td zd ps ts zs dur speed : ℚ)
    (preset_name preset_token : String) (tokOpt : Option String) :
    ((absolute_move st dev pan tilt zoom speed).2.2.countP
      (fun e => e.isAbsoluteMoveCall) ≤ 1) ∧
    ((relative_move st dev pd td zd speed).2.2.countP
      (fun e => e.isRelativeMoveCall) ≤ 1) ∧
    ((continuous_move st dev ps ts zs dur).2.countP
      (fun e => e.isContinuousMoveCall) ≤ 1) ∧
    ((stop st dev).2.countP (fun e => e.isStopWireCall) ≤ 1) ∧
    ((goto_preset st dev preset_token speed).2.countP
      (fun e => e.isGotoPresetCall) ≤ 1) ∧
    ((set_preset st dev preset_name tokOpt).2.2.countP
      (fun e => e.isSetPresetCall) ≤ 1) ∧
    ((remove_preset st dev preset_token).2.countP
      (fun e => e.isRemovePresetCall) ≤ 1) ∧
    ((goto_home st dev speed).2.countP (fun e => e.isGotoHomeCall) ≤ 1) ∧
    ((set_home st dev).2.countP (fun e => e.isSetHomeCall) ≤ 1) := by
  refine ⟨?_, ?_, ?_, ?_, ?_, ?_, ?_, ?_, ?_⟩
  · unfold absolute_move
    split
    · simp [List.countP_cons, List.countP_nil, Event.isAbsoluteMoveCall]
    · split
      · simp [List.countP_cons, List.countP_nil, Event.isAbsoluteMoveCall]
      · split
        · simp [List.countP_cons, List.countP_nil, Event.isAbsoluteMoveCall]
        · simp [List.countP_cons, List.countP_nil, Event.isAbsoluteMoveCall]
  · simp [relative_move, List.countP_cons, List.countP_nil,
      Event.isRelativeMoveCall]
  · unfold continuous_move
    split
    · simp [stop, List.countP_cons, List.countP_nil,
        Event.isContinuousMoveCall]
    · simp [List.countP_cons, List.countP_nil, Event.isContinuousMoveCall]
  · simp [stop, List.countP_cons, List.countP_nil, Event.isStopWireCall]
  · simp [goto_preset, List.countP_cons, List.countP_nil,
      Event.isGotoPresetCall]
  · cases hsp : dev.SetPresetResp <;>
      simp [set_preset, hsp, List.countP_cons, List.countP_nil,
        Event.isSetPresetCall]
  · simp [remove_preset, List.countP_cons, List.countP_nil,
      Event.isRemovePresetCall]
  · simp [goto_home, List.countP_cons, List.countP_nil,
      Event.isGotoHomeCall]
  · simp [set_home, List.countP_cons, List.countP_nil,
      Event.isSetHomeCall]

/-- Any of the exceptions `connect` can encounter makes it return `False`. -/
theorem connect_fails (st : ControllerState) (dev : Device)
    (h : dev.ConnectOk = false ∨ dev.GetDeviceInfoResp = none ∨
      dev.CreateMediaOk = false ∨ dev.GetProfilesResp = none ∨
      dev.GetProfilesResp = some [] ∨ dev.CreatePtzOk = false) :
    (connect st dev).1 = false := by
  unfold connect
  split
  · rfl
  · split
    · rfl
    · split
      · rfl
      · split
        · rfl
        · rfl
        · split
          · rfl
          · exfalso
            rcases h with h | h | h | h | h | h <;> simp_all

/-- Any of the exceptions `absolute_move` can encounter from the underlying
library makes it return `False`. -/
theorem absolute_move_fails (st : ControllerState) (dev : Device)
    (pan tilt zoom : Option ℚ) (speed : ℚ)
    (h : dev.GetStatusResp = none ∨ dev.AbsoluteMoveOk = false) :
    (absolute_move st dev pan tilt zoom speed).1 = false := by
  unfold absolute_move
  split
  · rfl
  · split
    · rfl
    · split
      · rfl
      · rcases h with h | h <;> simp_all

/-- C8: every public operation catches exceptions from the underlying
library and returns its documented fallback instead of propagating:
`connect` / `absolute_move` / `move_to_position` / `relative_move` return
`False`; `get_rtsp_url` is pure string formatting and never raises;
`get_onvif_stream_url` and `set_preset` return `""`; `get_status`,
`get_presets`, `get_device_info` and `get_capabilities` return `{}`;
`get_current_position` returns `(0.0, 0.0, 0.0)`; `get_ptz_nodes` returns
`[]`; and the `None`-returning operations complete with the state unchanged
and only their single wire call traced. -/
theorem C8_exceptions_swallowed (st : ControllerState) (dev : Device)
    (pan tilt zoom : Option ℚ) (speed pd td zd ps ts zs dur mp mt : ℚ)
    (idx : ℤ) (preset_name preset_token : String) (tokOpt : Option String) :
    ((dev.ConnectOk = false ∨ dev.GetDeviceInfoResp = none ∨
      dev.CreateMediaOk = false ∨ dev.GetProfilesResp = none ∨
      dev.GetProfilesResp = some [] ∨ dev.CreatePtzOk = false) →
      (connect st dev).1 = false) ∧
    ((dev.GetStatusResp = none ∨ dev.AbsoluteMoveOk = false) →
      (absolute_move st dev pan tilt zoom speed).1 = false) ∧
    ((dev.GetStatusResp = none ∨ dev.AbsoluteMoveOk = false) →
      (move_to_position st dev mp mt speed).1 = false) ∧
    (dev.RelativeMoveOk = false →
      (relative_move st dev pd td zd speed).1 = false) ∧
    (get_rtsp_url st idx = "rtsp://" ++ st.user ++ ":" ++ st.password ++
      "@" ++ st.host ++ ":554/stream" ++ toString idx) ∧
    (dev.GetStreamUriResp = none → (get_onvif_stream_url st dev).1 = "") ∧
    (dev.SetPresetResp = none →
      (set_preset st dev preset_name tokOpt).1 = "") ∧
    (dev.GetStatusResp = none → (get_status st dev).1 = SValue.dict []) ∧
    (dev.GetPresetsResp = none → (get_presets st dev).1 = []) ∧
    (dev.GetDeviceInfoResp = none →
      (get_device_info st dev).1 = SValue.dict []) ∧
    (dev.GetCapabilitiesResp = none →
      (get_capabilities st dev).1 = SValue.dict []) ∧
    (dev.GetStatusResp = none →
      (get_current_position st dev).1 = (0, 0, 0)) ∧
    (dev.GetNodesResp = none → (get_ptz_nodes st dev).1 = []) ∧
    (dev.ContinuousMoveOk = false →
      continuous_move st dev ps ts zs dur =
        (st, [Event.continuousMove
          { ProfileToken := st.media_profile.token
            Velocity := { PanTilt := ⟨ps, ts⟩, Zoom := ⟨zs⟩ } }])) ∧
    (dev.StopOk = false →
      stop st dev = (st, [Event.stopCall st.media_profile.token true true])) ∧
    (dev.GotoPresetOk = false →
      goto_preset st dev preset_token speed =
        (st, [Event.gotoPreset
          { ProfileToken := st.media_profile.token
            PresetToken := preset_token, Speed := uniformSpeed speed }])) ∧
    (dev.RemovePresetOk = false →
      remove_preset st dev preset_token =
        (st, [Event.removePreset st.media_profile.token preset_token])) ∧
    (dev.GotoHomeOk = false →
      goto_home st dev speed =
        (st, [Event.gotoHome { ProfileToken := st.media_profile.token
                               Speed := uniformSpeed speed }])) ∧
    (dev.SetHomeOk = false →
      set_home st dev = (st, [Event.setHome st.media_profile.token])) := by
  refine ⟨connect_fails st dev,
    absolute_move_fails st dev pan tilt zoom speed,
    absolute_move_fails st dev (some mp) (some mt) none speed,
    ?_, rfl, ?_, ?_, ?_, ?_, ?_, ?_, ?_, ?_, ?_, ?_, ?_, ?_, ?_, ?_⟩
  · intro h
    simp [relative_move, h]
  · intro h
    simp [get_onvif_stream_url, h]
  · intro h
    simp [set_preset, h]
  · intro h
    simp [get_status, h]
  · intro h
    simp [get_presets, h]
  · intro h
    simp [get_device_info, h]
  · intro h
    simp [get_capabilities, h]
  · intro h
    simp [get_current_position, h]
  · intro h
    simp [get_ptz_nodes, h]
  · intro h
    simp [continuous_move, h]
  · intro h
    rfl
  · intro h
    rfl
  · intro h
    rfl
  · intro h
    rfl
  · intro h
    rfl

/-- Witness for C8: on an everything-raises device, `connect` reports
`False` and `get_current_position` reports the origin. -/
theorem C8_witness :
    (connect cSt cFailDev).1 = false ∧
    (get_current_position cSt cFailDev).1 = (0, 0, 0) :=
  ⟨(C8_exceptions_swallowed cSt cFailDev none none none 0 0 0 0 0 0 0 0 0 0
      1 "n" "t" none).1 (Or.inl rfl),
   (C8_exceptions_swallowed cSt cFailDev none none none 0 0 0 0 0 0 0 0 0 0
      1 "n" "t" none).2.2.2.2.2.2.2.2.2.2.2.1 rfl⟩

/-- C10: `get_current_position` collapses failure and absence onto the
origin: it reports `(0.0, 0.0, 0.0)` both when `GetStatus` raises and when
`GetStatus` succeeds but the response lacks a `Position`; a missing
`PanTilt` or `Zoom` component likewise reads as `0.0`, so the fallback is
indistinguishable from the camera actually sitting at the origin. -/
theorem C10_ambiguous_fallback (st : ControllerState) (dev : Device) :
    (dev.GetStatusResp = none →
      (get_current_position st dev).1 = (0, 0, 0)) ∧
    (∀ status, dev.GetStatusResp = some status → status.Position = none →
      (get_current_position st dev).1 = (0, 0, 0)) ∧
    (∀ status p, dev.GetStatusResp = some status →
      status.Position = some p → p.PanTilt = none →
      (get_current_position st dev).1.1 = 0 ∧
      (get_current_position st dev).1.2.1 = 0) ∧
    (∀ status p, dev.GetStatusResp = some status →
      status.Position = some p → p.Zoom = none →
      (get_current_position st dev).1.2.2 = 0) := by
  refine ⟨?_, ?_, ?_, ?_⟩
  · intro h
    simp [get_current_position, h]
  · intro status h hp
    simp [get_current_position, h, hp]
  · intro status p h hp hpt
    simp [get_current_position, h, hp, hpt]
  · intro status p h hp hz
    simp [get_current_position, h, hp, hz]

/-- A device whose `GetStatus` succeeds but reports no `Position`. -/
def cEmptyDev : Device :=
  { cFailDev with GetStatusResp := some { Position := none
                                          MoveStatus := none } }

/-- Witness for C10: a raising `GetStatus` and a `Position`-less response
both read back as the origin. -/
theorem C10_witness :
    (get_current_position cSt cFailDev).1 = (0, 0, 0) ∧
    (get_current_position cSt cEmptyDev).1 = (0, 0, 0) :=
  ⟨(C10_ambiguous_fallback cSt cFailDev).1 rfl,
   (C10_ambiguous_fallback cSt cEmptyDev).2.1 _ rfl rfl⟩

/-- Inversion for a successful `connect`: the final state is
`_get_ptz_config_options` applied to an intermediate state that still
carries the constructor's coordinate ranges. -/
theorem connect_ranges (st st' : ControllerState) (dev : Device)
    (h : connect st dev = (true, st')) :
    ∃ st0 : ControllerState, st0.pan_range = st.pan_range ∧
      st0.tilt_range = st.tilt_range ∧ st0.zoom_range = st.zoom_range ∧
      st' = get_ptz_config_options st0 dev := by
  unfold connect at h
  split at h
  · simp at h
  · split at h
    · simp at h
    · split at h
      · simp at h
      · split at h
        · simp at h
        · simp at h
        · split at h
          · simp at h
          · simp only [Prod.mk.injEq, true_and] at h
            refine ⟨_, ?_, ?_, ?_, h.symm⟩
            · rfl
            · rfl
            · rfl

/-- Reduction of `_get_ptz_config_options` on a successful
`GetConfigurationOptions`. -/
theorem get_ptz_config_options_some (st : ControllerState) (dev : Device)
    (spaces : PTZSpaces) (h : dev.GetConfigOptionsResp = some spaces) :
    get_ptz_config_options st dev =
      (let st0 := { st with ptz_config_options := some spaces }
       let st1 := match spaces.AbsolutePanTiltPositionSpace with
         | [] => st0
         | s :: _ =>
           { st0 with pan_range := (s.XRange.Min, s.XRange.Max)
                      tilt_range := (s.YRange.Min, s.YRange.Max) }
       match spaces.AbsoluteZoomPositionSpace with
       | [] => st1
       | z :: _ => { st1 with zoom_range := (z.XRange.Min, z.XRange.Max) }) := by
  unfold get_ptz_config_options
  rw [h]

/-- A raising `GetConfigurationOptions` leaves the state untouched. -/
theorem config_options_of_none (st : ControllerState) (dev : Device)
    (h : dev.GetConfigOptionsResp = none) :
    get_ptz_config_options st dev = st := by
  unfold get_ptz_config_options
  rw [h]

/-- An absent/empty `AbsolutePanTiltPositionSpace` leaves `pan_range` and
`tilt_range` untouched. -/
theorem config_options_pan_empty (st : ControllerState) (dev : Device)
    (spaces : PTZSpaces) (h : dev.GetConfigOptionsResp = some spaces)
    (hs : spaces.AbsolutePanTiltPositionSpace = []) :
    (get_ptz_config_options st dev).pan_range = st.pan_range ∧
    (get_ptz_config_options st dev).tilt_range = st.tilt_range := by
  rw [get_ptz_config_options_some st dev spaces h]
  simp only [hs]
  cases hz : spaces.AbsoluteZoomPositionSpace <;> simp

/-- The first `AbsolutePanTiltPositionSpace` sets `pan_range` from its
`XRange` and `tilt_range` from its `YRange`. -/
theorem config_options_pan_cons (st : ControllerState) (dev : Device)
    (spaces : PTZSpaces) (s : Space2D) (l : List Space2D)
    (h : dev.GetConfigOptionsResp = some spaces)
    (hs : spaces.AbsolutePanTiltPositionSpace = s :: l) :
    (get_ptz_config_options st dev).pan_range =
      (s.XRange.Min, s.XRange.Max) ∧
    (get_ptz_config_options st dev).tilt_range =
      (s.YRange.Min, s.YRange.Max) := by
  rw [get_ptz_config_options_some st dev spaces h]
  simp only [hs]
  cases hz : spaces.AbsoluteZoomPositionSpace <;> simp

/-- An absent/empty `AbsoluteZoomPositionSpace` leaves `zoom_range`
untouched. -/
theorem config_options_zoom_empty (st : ControllerState) (dev : Device)
    (spaces : PTZSpaces) (h : dev.GetConfigOptionsResp = some spaces)
    (hz : spaces.AbsoluteZoomPositionSpace = []) :
    (get_ptz_config_options st dev).zoom_range = st.zoom_range := by
  rw [get_ptz_config_options_some st dev spaces h]
  simp only [hz]
  cases hp : spaces.AbsolutePanTiltPositionSpace <;> simp

/-- The first `AbsoluteZoomPositionSpace` sets `zoom_range` from its
`XRange`. -/
theorem config_options_zoom_cons (st : ControllerState) (dev : Device)
    (spaces : PTZSpaces) (z : Space1D) (l : List Space1D)
    (h : dev.GetConfigOptionsResp = some spaces)
    (hz : spaces.AbsoluteZoomPositionSpace = z :: l) :
    (get_ptz_config_options st dev).zoom_range =
      (z.XRange.Min, z.XRange.Max) := by
  rw [get_ptz_config_options_some st dev spaces h]
  simp only [hz]

/-- C2: after a successful `connect` from a fresh controller, `pan_range`
and `tilt_range` come from the first `AbsolutePanTiltPositionSpace` of
`GetConfigurationOptions` and `zoom_range` from the first
`AbsoluteZoomPositionSpace`; with no such space, or a raising
`GetConfigurationOptions`, the constructor defaults `(-1.0, 1.0)`,
`(-1.0, 1.0)`, `(0.0, 1.0)` remain in effect. -/
theorem C2_range_discovery (host : String) (port : ℤ) (user pw : String)
    (dev : Device) (st' : ControllerState)
    (h : connect (initState host port user pw) dev = (true, st')) :
    (dev.GetConfigOptionsResp = none →
      st'.pan_range = (-1, 1) ∧ st'.tilt_range = (-1, 1) ∧
      st'.zoom_range = (0, 1)) ∧
    (∀ spaces, dev.GetConfigOptionsResp = some spaces →
      (spaces.AbsolutePanTiltPositionSpace = [] →
        st'.pan_range = (-1, 1) ∧ st'.tilt_range = (-1, 1)) ∧
      (∀ s l, spaces.AbsolutePanTiltPositionSpace = s :: l →
        st'.pan_range = (s.XRange.Min, s.XRange.Max) ∧
        st'.tilt_range = (s.YRange.Min, s.YRange.Max)) ∧
      (spaces.AbsoluteZoomPositionSpace = [] → st'.zoom_range = (0, 1)) ∧
      (∀ z l, spaces.AbsoluteZoomPositionSpace = z :: l →
        st'.zoom_range = (z.XRange.Min, z.XRange.Max))) := by
  obtain ⟨st0, hp, ht, hz, rfl⟩ := connect_ranges _ _ _ h
  have hp0 : st0.pan_range = (-1, 1) := hp
  have ht0 : st0.tilt_range = (-1, 1) := ht
  have hz0 : st0.zoom_range = (0, 1) := hz
  refine ⟨?_, ?_⟩
  · intro hN
    rw [config_options_of_none st0 dev hN]
    exact ⟨hp0, ht0, hz0⟩
  · intro spaces hS
    refine ⟨?_, ?_, ?_, ?_⟩
    · intro hs
      obtain ⟨e1, e2⟩ := config_options_pan_empty st0 dev spaces hS hs
      rw [e1, e2]
      exact ⟨hp0, ht0⟩
    · intro s l hs
      exact config_options_pan_cons st0 dev spaces s l hS hs
    · intro hzz
      rw [config_options_zoom_empty st0 dev spaces hS hzz]
      exact hz0
    · intro z l hzz
      exact config_options_zoom_cons st0 dev spaces z l hS hzz

/-- The state `connect (initState "h" 2020 "u" "p") cDev` ends in. -/
def cConnSt : ControllerState :=
  { initState "h" 2020 "u" "p" with
    media_service := true, ptz_service := true
    media_profile := ⟨"prof0", "tok0", "cfg0"⟩
    ptz_config_options := some
      { AbsolutePanTiltPositionSpace := [⟨⟨-1, 1⟩, ⟨-1, 1⟩⟩]
        AbsoluteZoomPositionSpace := [⟨⟨0, 1⟩⟩] }
    pan_range := (-1, 1), tilt_range := (-1, 1), zoom_range := (0, 1) }

/-- Witness for C2: on `cDev`, discovery adopts the reported pan/tilt
ranges. -/
theorem C2_witness :
    cConnSt.pan_range = (-1, 1) ∧ cConnSt.tilt_range = (-1, 1) :=
  ((C2_range_discovery "h" 2020 "u" "p" cDev cConnSt (by decide)).2
    _ rfl).2.1 ⟨⟨-1, 1⟩, ⟨-1, 1⟩⟩ [] rfl
